import Mathlib

/-
Verification of the query-translation-and-response pipeline of
`sap_query_assistant.py` (class SAPQueryAssistant) against its
natural-language specification.

The two external collaborators are modelled at their interface boundary,
exactly as the spec scopes them:
  - the text-completion service is a black box `prompt text -> completion
    text or failure`; since the three prompt templates are constant text
    around the interpolated inputs, each call site is modelled as a
    function of the interpolated inputs (question, schema, query text);
  - the data store is a black box offering connect / execute / fetch;
    a `DataStore` value fixes its responses.

Python exceptions are modelled with `Except String`; the messages follow
the source f-strings.  Every data-store interaction of the embedded code
is additionally recorded in an event trace, so that claims about
"never contacting the data store" and "releasing the connection and the
cursor" are statable.
-/

namespace SapB1

/-- Insertion of one key-value pair with the semantics of a Python dict:
if the key is already bound, its value is updated in place (insertion
order kept); otherwise the pair is appended at the end. -/
def pyDictInsert {V : Type} (d : List (String × V)) (kv : String × V) :
    List (String × V) :=
  if d.any (fun p => p.1 = kv.1) then
    d.map (fun p => if p.1 = kv.1 then (p.1, kv.2) else p)
  else
    d ++ [kv]

/-- Building a Python dict from a sequence of key-value pairs
(`dict(zip(...))`, or a dict literal with possibly repeated keys):
left fold of `pyDictInsert` starting from the empty dict, so a later
binding of a key overwrites the earlier one while keeping the position
of the first occurrence. -/
def pyDict {V : Type} (pairs : List (String × V)) : List (String × V) :=
  pairs.foldl pyDictInsert []

/-- Python whitespace predicate used by `str.strip` (ASCII range). -/
def pyIsSpace (c : Char) : Bool :=
  c = ' ' || c = '\t' || c = '\n' || c = '\r' || c = '\x0b' || c = '\x0c'

/-- Embeds Python `str.strip()`: remove leading and trailing
whitespace. -/
def pyStrip (s : String) : String :=
  ⟨((s.data.dropWhile pyIsSpace).reverse.dropWhile pyIsSpace).reverse⟩

/-- Embeds Python `str.lower()` on one character (ASCII case
folding). -/
def pyLowerChar (c : Char) : Char :=
  if 'A' ≤ c && c ≤ 'Z' then Char.ofNat (c.toNat + 32) else c

/-- Embeds Python `str.lower()`. -/
def pyLower (s : String) : String :=
  ⟨s.data.map pyLowerChar⟩

/-- Observable interactions of the embedded code with the data store. -/
inductive DbEvent where
  | connectAttempted : DbEvent
  | connectionOpened : DbEvent
  | queryExecuted (sql : String) : DbEvent
  | cursorClosed : DbEvent
  | connectionClosed : DbEvent
deriving DecidableEq

/-- Result of a successful `cursor.execute` followed by fetches:
`description` is the DB-API cursor description, one tuple per declared
column whose first component is the column name (the remaining metadata
is collapsed into one opaque string); `rows` is what `fetchall` returns,
in fetch order.  `V` is the type of the opaque cell values. -/
structure Cursor (V : Type) where
  description : List (String × String)
  rows : List (List V)

/-- Black-box data store: `connect` is the outcome of `dbapi.connect`
with the configured parameters, `execute` gives for each query text the
outcome of running it (a cursor with declared columns and fetched rows,
or a failure message). -/
structure DataStore (V : Type) where
  connect : Except String Unit
  execute : String → Except String (Cursor V)

/-- Black-box completion service (`client.chat.completions.create`),
one field per call site of the source, as a function of the data
interpolated into the prompt template at that call site; the result is
the raw message content, or the failure message of a raised exception. -/
structure CompletionService where
  completeGenerate : String → String → Except String String
  completeClassify : String → Except String String
  completeSummarize : String → String → Except String String

/-- Embeds `SAPQueryAssistant._get_db_connection`: attempt the
connection; on failure wrap the message as the source does. -/
def _get_db_connection {V : Type} (ds : DataStore V) :
    Except String Unit × List DbEvent :=
  match ds.connect with
  | .ok () => (.ok (), [.connectAttempted, .connectionOpened])
  | .error e =>
      (.error ("Failed to connect to SAP HANA database: " ++ e),
       [.connectAttempted])

/-- Embeds `SAPQueryAssistant._execute_query`: connect, execute the
query text, take the first component of each cursor-description tuple
as column names, build one `dict(zip(columns, row))` per fetched row,
close cursor and connection, return the rows; any exception on the way
is wrapped into `Failed to execute query: ...` and re-raised.  The
source has no try/finally, so the close calls are only reached on the
success path. -/
def _execute_query {V : Type} (ds : DataStore V) (sql_query : String) :
    Except String (List (List (String × V))) × List DbEvent :=
  match _get_db_connection ds with
  | (.error e, evs) => (.error ("Failed to execute query: " ++ e), evs)
  | (.ok (), evs) =>
      match ds.execute sql_query with
      | .error e =>
          (.error ("Failed to execute query: " ++ e),
           evs ++ [.queryExecuted sql_query])
      | .ok cursor =>
          let columns := cursor.description.map (fun desc => desc.1)
          let results := cursor.rows.map (fun row => pyDict (columns.zip row))
          (.ok results,
           evs ++ [.queryExecuted sql_query, .cursorClosed, .connectionClosed])

/-- The closed set of visualization categories of the source
(`["table", "bar_chart", "line_chart", "pie_chart"]`). -/
def allowed_viz_types : List String :=
  ["table", "bar_chart", "line_chart", "pie_chart"]

/-- Embeds `SAPQueryAssistant._get_visualization_type`: call the
completion service (a failure propagates), strip and lowercase the raw
content, keep it when it is in the closed set and fall back to
`table` otherwise. -/
def _get_visualization_type (svc : CompletionService) (query : String) :
    Except String String :=
  match svc.completeClassify query with
  | .error e => .error e
  | .ok content =>
      let viz_type := pyLower (pyStrip content)
      .ok (if viz_type ∈ allowed_viz_types then viz_type else "table")

/-- The refusal text that instruction 9 of the generation prompt tells
the completion service to return in place of a query when a create,
delete or insert operation is requested. -/
def refusal_sentinel : String :=
  "ERROR: Operation not allowed. This assistant only supports read-only SELECT queries."

/-- Embeds `SAPQueryAssistant._generate_sql_query`: one completion call
(whose prompt interpolates the schema and the question), stripped; a
service failure propagates. -/
def _generate_sql_query (svc : CompletionService) (schema query : String) :
    Except String String :=
  match svc.completeGenerate schema query with
  | .error e => .error e
  | .ok content => .ok (pyStrip content)

/-- Embeds `SAPQueryAssistant._generate_summary`: one completion call
(whose prompt interpolates the query text and the question; the
`results` argument is accepted but not used), stripped; a service
failure propagates. -/
def _generate_summary {V : Type} (svc : CompletionService)
    (query sql_query : String)
    (results : Option (List (List (String × V)))) : Except String String :=
  match svc.completeSummarize query sql_query with
  | .error e => .error e
  | .ok content => .ok (pyStrip content)

/-- Embeds the pydantic model `QueryResponse`.  The first three fields
are mandatory in the source model; `results` and `error` default to
`None`. -/
structure QueryResponse (V : Type) where
  sqlQuery : String
  visualizationType : String
  summary : String
  results : Option (List (List (String × V))) := none
  error : Option String := none
deriving DecidableEq

/-- Embeds `SAPQueryAssistant.process_query`: generate the query text,
classify the visualization, execute only when requested (an execution
failure is caught and stored in `error`, everything else propagates),
summarize, assemble the response; any propagated exception is wrapped
into `Error processing query: ...` by the outer handler.  The second
component collects the data-store events of the run. -/
def process_query {V : Type} (svc : CompletionService) (ds : DataStore V)
    (schema query : String) (execute_query : Bool) :
    Except String (QueryResponse V) × List DbEvent :=
  match _generate_sql_query svc schema query with
  | .error e => (.error ("Error processing query: " ++ e), [])
  | .ok sql_query =>
      match _get_visualization_type svc query with
      | .error e => (.error ("Error processing query: " ++ e), [])
      | .ok viz_type =>
          let step :
              (Option (List (List (String × V))) × Option String)
                × List DbEvent :=
            if execute_query then
              match _execute_query ds sql_query with
              | (.ok rs, evs) => ((some rs, none), evs)
              | (.error e, evs) => ((none, some e), evs)
            else ((none, none), [])
          match step with
          | ((results, err), events) =>
              match _generate_summary svc query sql_query results with
              | .error e => (.error ("Error processing query: " ++ e), events)
              | .ok summary =>
                  (.ok { sqlQuery := sql_query, visualizationType := viz_type,
                         summary := summary, results := results,
                         error := err }, events)

/-- The default schema namespace of the source
(`os.getenv("SAP_B1_SCHEMA", "SBODEMOUS")`). -/
def default_schema : String := "SBODEMOUS"

/-- Embeds the namespace lookup: the environment value when present,
the default constant otherwise. -/
def schema_of (env_value : Option String) : String :=
  env_value.getD default_schema

/-- The bindings of the `table_mappings` dict literal of
`SAPQueryAssistant.__init__`, in source order, duplicated keys
included. -/
def table_mapping_entries (schema : String) : List (String × List String) :=
  [ ("sales", [schema ++ ".OINV", schema ++ ".INV1", schema ++ ".OITM",
               schema ++ ".ORIN", schema ++ ".RIN1"]),
    ("inventory", [schema ++ ".OITM", schema ++ ".OITW", schema ++ ".OITB"]),
    ("customers", [schema ++ ".OCRD", schema ++ ".OCPR"]),
    ("purchases", [schema ++ ".OPOR", schema ++ ".POR1"]),
    ("financial", [schema ++ ".OJDT", schema ++ ".JDT1"]),
    ("brands", [schema ++ ".OITB"]),
    ("item_categories", [schema ++ ".OITC"]),
    ("item_groups", [schema ++ ".OITG"]),
    ("item_locations", [schema ++ ".OITL"]),
    ("items", [schema ++ ".OITM"]),
    ("warehouses", [schema ++ ".OITW"]),
    ("employees", [schema ++ ".OHEM"]),
    ("customers", [schema ++ ".OCRD"]),
    ("projects", [schema ++ ".OPRJ"]),
    ("journal_entries", [schema ++ ".OJDT"]),
    ("journal_entry_lines", [schema ++ ".JDT1"]),
    ("business_partners", [schema ++ ".OCRD"]),
    ("item_categories", [schema ++ ".OITC"]) ]

/-- The Schema Catalog: the dict literal evaluated with Python
semantics (later duplicate bindings overwrite earlier ones). -/
def table_mappings (schema : String) : List (String × List String) :=
  pyDict (table_mapping_entries schema)

/-- The table-code suffixes of the catalog bindings, independent of the
namespace: binding by binding, `table_mapping_entries schema` is these
suffixes with the namespace prepended. -/
def table_mapping_suffixes : List (String × List String) :=
  [ ("sales", [".OINV", ".INV1", ".OITM", ".ORIN", ".RIN1"]),
    ("inventory", [".OITM", ".OITW", ".OITB"]),
    ("customers", [".OCRD", ".OCPR"]),
    ("purchases", [".OPOR", ".POR1"]),
    ("financial", [".OJDT", ".JDT1"]),
    ("brands", [".OITB"]),
    ("item_categories", [".OITC"]),
    ("item_groups", [".OITG"]),
    ("item_locations", [".OITL"]),
    ("items", [".OITM"]),
    ("warehouses", [".OITW"]),
    ("employees", [".OHEM"]),
    ("customers", [".OCRD"]),
    ("projects", [".OPRJ"]),
    ("journal_entries", [".OJDT"]),
    ("journal_entry_lines", [".JDT1"]),
    ("business_partners", [".OCRD"]),
    ("item_categories", [".OITC"]) ]

end SapB1


namespace SapB1

/-! ## Helper lemmas about the embedded operations -/

/-- Appending a fixed string on the left is injective. -/
theorem append_left_inj (s : String) {t u : String} (h : s ++ t = s ++ u) :
    t = u := by
  apply String.ext
  have h2 : s.data ++ t.data = s.data ++ u.data := by
    have h3 := congrArg String.data h
    simpa using h3
  exact List.append_cancel_left h2

/-- List projection helper: the keys of a zip form a sublist of the key
list. -/
theorem map_fst_zip_sublist {α β : Type} :
    ∀ (as : List α) (bs : List β), ((as.zip bs).map Prod.fst).Sublist as
  | [], _ => by simp
  | _ :: _, [] => by simp
  | a :: as, _ :: bs => by simpa using (map_fst_zip_sublist as bs).cons₂ a

/-- When the keys are pairwise distinct, folding dict insertions just
appends the pairs. -/
theorem foldl_pyDictInsert_nodup {V : Type} :
    ∀ (l acc : List (String × V)),
      ((acc ++ l).map Prod.fst).Nodup →
        l.foldl pyDictInsert acc = acc ++ l
  | [], acc, _ => by simp
  | kv :: t, acc, h => by
      have hk : kv.1 ∉ acc.map Prod.fst := by
        have h2 := h
        simp only [List.map_append, List.nodup_append] at h2
        intro hmem
        exact h2.2.2 hmem (by simp)
      have hins : pyDictInsert acc kv = acc ++ [kv] := by
        unfold pyDictInsert
        have hany : acc.any (fun p => decide (p.1 = kv.1)) = false := by
          simp only [List.any_eq_false, decide_eq_true_eq]
          intro p hp hpk
          exact hk (hpk ▸ List.mem_map_of_mem Prod.fst hp)
        simp [hany]
      simp only [List.foldl_cons, hins]
      have h3 : (((acc ++ [kv]) ++ t).map Prod.fst).Nodup := by
        simpa using h
      have h4 := foldl_pyDictInsert_nodup t (acc ++ [kv]) h3
      simpa using h4

/-- A Python dict over pairs with pairwise-distinct keys is those pairs
unchanged. -/
theorem pyDict_eq_self {V : Type} (l : List (String × V))
    (h : (l.map Prod.fst).Nodup) : pyDict l = l := by
  unfold pyDict
  have h2 := foldl_pyDictInsert_nodup l [] (by simpa using h)
  simpa using h2

/-- Any value the classifier returns is in the closed set. -/
theorem viz_of_ok {svc : CompletionService} {q v : String}
    (h : _get_visualization_type svc q = .ok v) : v ∈ allowed_viz_types := by
  unfold _get_visualization_type at h
  cases hc : svc.completeClassify q with
  | error e => rw [hc] at h; cases h
  | ok content =>
      rw [hc] at h
      simp only [Except.ok.injEq] at h
      subst h
      split
      · assumption
      · simp [allowed_viz_types]

/-- The Schema Catalog factors through the namespace-independent
suffix catalog: every identifier is the configured namespace followed
by a fixed suffix. -/
theorem table_mappings_factor (s : String) :
    table_mappings s = (pyDict table_mapping_suffixes).map
      (fun e => (e.1, e.2.map (fun suf => s ++ suf))) := by
  simp [table_mappings, table_mapping_entries, table_mapping_suffixes,
    pyDict, pyDictInsert]

/-- The Schema Catalog, evaluated: sixteen concepts, first-occurrence
order, the duplicated keys resolved to their last bindings. -/
theorem table_mappings_eval (s : String) :
    table_mappings s =
      [ ("sales", [s ++ ".OINV", s ++ ".INV1", s ++ ".OITM",
                   s ++ ".ORIN", s ++ ".RIN1"]),
        ("inventory", [s ++ ".OITM", s ++ ".OITW", s ++ ".OITB"]),
        ("customers", [s ++ ".OCRD"]),
        ("purchases", [s ++ ".OPOR", s ++ ".POR1"]),
        ("financial", [s ++ ".OJDT", s ++ ".JDT1"]),
        ("brands", [s ++ ".OITB"]),
        ("item_categories", [s ++ ".OITC"]),
        ("item_groups", [s ++ ".OITG"]),
        ("item_locations", [s ++ ".OITL"]),
        ("items", [s ++ ".OITM"]),
        ("warehouses", [s ++ ".OITW"]),
        ("employees", [s ++ ".OHEM"]),
        ("projects", [s ++ ".OPRJ"]),
        ("journal_entries", [s ++ ".OJDT"]),
        ("journal_entry_lines", [s ++ ".JDT1"]),
        ("business_partners", [s ++ ".OCRD"]) ] := by
  simp [table_mappings, table_mapping_entries, pyDict, pyDictInsert]

end SapB1

namespace SapB1

/-! ## Concrete collaborators used by witnesses and counterexamples -/

/-- A completion service that answers every call successfully. -/
def okService : CompletionService where
  completeGenerate := fun _ _ => .ok "SELECT 1"
  completeClassify := fun _ => .ok "bar_chart"
  completeSummarize := fun _ _ => .ok "A short summary."

/-- A completion service whose classification call fails. -/
def classifyFailService : CompletionService where
  completeGenerate := fun _ _ => .ok "SELECT 1"
  completeClassify := fun _ => .error "rate limited"
  completeSummarize := fun _ _ => .ok "A short summary."

/-- A completion service whose classification call returns text outside
the closed set. -/
def fuzzService : CompletionService where
  completeGenerate := fun _ _ => .ok "SELECT 1"
  completeClassify := fun _ => .ok "  Scatter_Plot  "
  completeSummarize := fun _ _ => .ok "A short summary."

/-- A data store that accepts every query and returns no rows. -/
def acceptingStore : DataStore String where
  connect := .ok ()
  execute := fun _ => .ok { description := [("X", "meta")], rows := [] }

/-- A data store whose connection succeeds but that rejects every
query. -/
def failingStore : DataStore String where
  connect := .ok ()
  execute := fun _ => .error "connection refused"

/-- A data store answering with two identically named columns. -/
def dupColumnStore : DataStore String where
  connect := .ok ()
  execute := fun _ =>
    .ok { description := [("A", "m1"), ("A", "m2")], rows := [["v1", "v2"]] }

/-- A data store answering with two distinct columns and two rows. -/
def twoColStore : DataStore String where
  connect := .ok ()
  execute := fun _ =>
    .ok { description := [("A", "m"), ("B", "m")],
          rows := [["v1", "v2"], ["v3", "v4"]] }

/-! ## C1 -/

/-- C1, counterexample: run on the refusal sentinel against a data
store that rejects every query, the executor opens a connection and
sends the sentinel text to the data store, contradicting the claim that
the sentinel is detected and never executed and that no connection is
opened. -/
theorem C1_counterexample :
    DbEvent.connectionOpened ∈ (_execute_query failingStore refusal_sentinel).2 ∧
    DbEvent.queryExecuted refusal_sentinel ∈
      (_execute_query failingStore refusal_sentinel).2 := by
  decide

/-- C1, amended: the executor performs no sentinel detection; whenever
the connection succeeds, the refusal sentinel is sent to the data store
and executed like any other query text, and when the data store fails
on it the failure is reported as a descriptive execution error. -/
theorem C1_sentinel_reaches_store {V : Type} (ds : DataStore V)
    (hconn : ds.connect = .ok ()) :
    DbEvent.queryExecuted refusal_sentinel ∈
      (_execute_query ds refusal_sentinel).2 ∧
    ∀ m, ds.execute refusal_sentinel = .error m →
      (_execute_query ds refusal_sentinel).1 =
        .error ("Failed to execute query: " ++ m) := by
  unfold _execute_query _get_db_connection
  rw [hconn]
  constructor
  · cases hx : ds.execute refusal_sentinel <;> simp
  · intro m hm
    rw [hm]

/-- C1, witness for the amended theorem at a concrete data store. -/
theorem C1_sentinel_reaches_store_witness :
    failingStore.connect = .ok () ∧
    DbEvent.queryExecuted refusal_sentinel ∈
      (_execute_query failingStore refusal_sentinel).2 ∧
    (_execute_query failingStore refusal_sentinel).1 =
      .error ("Failed to execute query: " ++ "connection refused") :=
  ⟨rfl, (C1_sentinel_reaches_store failingStore rfl).1,
    (C1_sentinel_reaches_store failingStore rfl).2 "connection refused" rfl⟩

/-! ## C2 -/

/-- C2, counterexample: against a data store that rejects the query
after a successful connection, the executor raises the wrapped error
with the connection opened but neither the cursor nor the connection
ever closed, contradicting release-exactly-once on every exit path. -/
theorem C2_counterexample :
    DbEvent.connectionOpened ∈ (_execute_query failingStore "SELECT 1").2 ∧
    (_execute_query failingStore "SELECT 1").1 =
      .error ("Failed to execute query: " ++ "connection refused") ∧
    DbEvent.cursorClosed ∉ (_execute_query failingStore "SELECT 1").2 ∧
    DbEvent.connectionClosed ∉ (_execute_query failingStore "SELECT 1").2 :=
  ⟨by decide, rfl, by decide, by decide⟩

/-- C2, amended: after a successful connection the cursor and the
connection are closed exactly once on the success path, but on a data
error during execution or fetch they are not closed at all before the
wrapped exception is raised. -/
theorem C2_release_on_success_only {V : Type} (ds : DataStore V)
    (sql : String) (hconn : ds.connect = .ok ()) :
    (∀ cur, ds.execute sql = .ok cur →
      (_execute_query ds sql).2 =
        [.connectAttempted, .connectionOpened, .queryExecuted sql,
         .cursorClosed, .connectionClosed] ∧
      (_execute_query ds sql).2.count DbEvent.cursorClosed = 1 ∧
      (_execute_query ds sql).2.count DbEvent.connectionClosed = 1) ∧
    (∀ m, ds.execute sql = .error m →
      (_execute_query ds sql).2 =
        [.connectAttempted, .connectionOpened, .queryExecuted sql] ∧
      (_execute_query ds sql).2.count DbEvent.cursorClosed = 0 ∧
      (_execute_query ds sql).2.count DbEvent.connectionClosed = 0) := by
  unfold _execute_query _get_db_connection
  rw [hconn]
  constructor
  · intro cur hcur
    rw [hcur]
    refine ⟨rfl, ?_, ?_⟩ <;> simp [List.count_cons, List.count_nil]
  · intro m hm
    rw [hm]
    refine ⟨rfl, ?_, ?_⟩ <;> simp [List.count_cons, List.count_nil]

/-- C2, witness for the amended theorem at a concrete data store,
success path. -/
theorem C2_release_on_success_only_witness :
    acceptingStore.connect = .ok () ∧
    acceptingStore.execute "SELECT 1" =
      .ok { description := [("X", "meta")], rows := [] } ∧
    (_execute_query acceptingStore "SELECT 1").2.count
      DbEvent.cursorClosed = 1 ∧
    (_execute_query acceptingStore "SELECT 1").2.count
      DbEvent.connectionClosed = 1 :=
  ⟨rfl, rfl,
    ((C2_release_on_success_only acceptingStore "SELECT 1" rfl).1
      { description := [("X", "meta")], rows := [] } rfl).2.1,
    ((C2_release_on_success_only acceptingStore "SELECT 1" rfl).1
      { description := [("X", "meta")], rows := [] } rfl).2.2⟩

end SapB1

namespace SapB1

/-! ## C3 -/

/-- C3: when generation, classification and summarization succeed but
execution fails, the failure is absorbed: the returned response carries
the generated query text, a valid visualization type and the summary,
with results absent and the error field holding the failure message;
the failure is not re-raised. -/
theorem C3_execution_failure_absorbed {V : Type} (svc : CompletionService)
    (ds : DataStore V) (schema q sql viz sum m : String)
    (hg : _generate_sql_query svc schema q = .ok sql)
    (hv : _get_visualization_type svc q = .ok viz)
    (hs : _generate_summary svc q sql
      (none : Option (List (List (String × V)))) = .ok sum)
    (hx : (_execute_query ds sql).1 = .error m) :
    (process_query svc ds schema q true).1 =
      .ok { sqlQuery := sql, visualizationType := viz, summary := sum,
            results := none, error := some m } ∧
    viz ∈ allowed_viz_types := by
  constructor
  · rcases hds : _execute_query ds sql with ⟨r, evs⟩
    rw [hds] at hx
    simp only at hx
    subst hx
    simp [process_query, hg, hv, hds, hs]
  · exact viz_of_ok hv

/-- C3, witness at concrete collaborators. -/
theorem C3_execution_failure_absorbed_witness :
    _generate_sql_query okService "S" "q" = .ok "SELECT 1" ∧
    _get_visualization_type okService "q" = .ok "bar_chart" ∧
    _generate_summary okService "q" "SELECT 1"
      (none : Option (List (List (String × String)))) =
        .ok "A short summary." ∧
    (_execute_query failingStore "SELECT 1").1 =
      .error ("Failed to execute query: " ++ "connection refused") ∧
    (process_query okService failingStore "S" "q" true).1 =
      .ok { sqlQuery := "SELECT 1", visualizationType := "bar_chart",
            summary := "A short summary.", results := none,
            error := some ("Failed to execute query: " ++ "connection refused") } :=
  ⟨rfl, rfl, rfl, rfl,
    (C3_execution_failure_absorbed okService failingStore "S" "q" "SELECT 1"
      "bar_chart" "A short summary."
      ("Failed to execute query: " ++ "connection refused")
      rfl rfl rfl rfl).1⟩

/-! ## C4 -/

/-- C4, counterexample: with two identically named declared columns the
record is not the two zipped (column, value) pairs; the Python dict
collapses them into one entry holding the last value. -/
theorem C4_counterexample :
    (_execute_query dupColumnStore "SELECT 1").1 = .ok [[("A", "v2")]] ∧
    (_execute_query dupColumnStore "SELECT 1").1 ≠
      .ok [List.zip ["A", "A"] ["v1", "v2"]] := by
  have hval : (_execute_query dupColumnStore "SELECT 1").1 =
      .ok [[("A", "v2")]] := rfl
  refine ⟨hval, ?_⟩
  rw [hval]
  intro h
  simp only [Except.ok.injEq] at h
  exact absurd h (by decide)

/-- C4, amended: on success the executor returns one record per fetched
row in fetch order, each record being the Python dict of the zipped
(declared column name, value) pairs; when the declared column names are
pairwise distinct this is exactly the ordered zip preserving declared
order and names, but duplicate declared names collapse into a single
entry. -/
theorem C4_rows_are_zipped_dicts {V : Type} (ds : DataStore V)
    (sql : String) (cur : Cursor V) (hconn : ds.connect = .ok ())
    (hex : ds.execute sql = .ok cur) :
    (_execute_query ds sql).1 =
      .ok (cur.rows.map (fun row =>
        pyDict ((cur.description.map Prod.fst).zip row))) ∧
    ((cur.description.map Prod.fst).Nodup →
      (_execute_query ds sql).1 =
        .ok (cur.rows.map (fun row =>
          (cur.description.map Prod.fst).zip row))) := by
  have h1 : (_execute_query ds sql).1 =
      .ok (cur.rows.map (fun row =>
        pyDict ((cur.description.map Prod.fst).zip row))) := by
    unfold _execute_query _get_db_connection
    rw [hconn, hex]
  refine ⟨h1, fun hnd => ?_⟩
  rw [h1]
  congr 1
  apply List.map_congr_left
  intro row _
  exact pyDict_eq_self _
    (((map_fst_zip_sublist (cur.description.map Prod.fst) row)).nodup hnd)

/-- C4, witness for the amended theorem: two distinct columns, two
rows, the records are the ordered zipped pairs. -/
theorem C4_rows_are_zipped_dicts_witness :
    twoColStore.connect = .ok () ∧
    twoColStore.execute "SELECT 1" =
      .ok { description := [("A", "m"), ("B", "m")],
            rows := [["v1", "v2"], ["v3", "v4"]] } ∧
    (_execute_query twoColStore "SELECT 1").1 =
      .ok [[("A", "v1"), ("B", "v2")], [("A", "v3"), ("B", "v4")]] :=
  ⟨rfl, rfl, by
    have h := (C4_rows_are_zipped_dicts twoColStore "SELECT 1"
      { description := [("A", "m"), ("B", "m")],
        rows := [["v1", "v2"], ["v3", "v4"]] } rfl rfl).2 (by decide)
    simpa using h⟩

end SapB1

namespace SapB1

/-! ## C5 -/

/-- C5: for every raw text the completion service returns to the
classifier, the classifier output is the stripped, lowercased text when
that is in the closed set {table, bar_chart, line_chart, pie_chart},
and every normalized value outside that set maps to table; in
particular the output is always a member of the set. -/
theorem C5_viz_normalization (svc : CompletionService) (q raw : String)
    (h : svc.completeClassify q = .ok raw) :
    ∃ v, _get_visualization_type svc q = .ok v ∧
      v ∈ allowed_viz_types ∧
      (pyLower (pyStrip raw) ∉ allowed_viz_types → v = "table") ∧
      (pyLower (pyStrip raw) ∈ allowed_viz_types →
        v = pyLower (pyStrip raw)) := by
  refine ⟨if pyLower (pyStrip raw) ∈ allowed_viz_types
            then pyLower (pyStrip raw) else "table", ?_, ?_, ?_, ?_⟩
  · unfold _get_visualization_type
    rw [h]
  · by_cases hm : pyLower (pyStrip raw) ∈ allowed_viz_types
    · rw [if_pos hm]
      exact hm
    · rw [if_neg hm]
      simp [allowed_viz_types]
  · intro hm
    simp [hm]
  · intro hm
    simp [hm]

/-- C5, witness: a raw classifier text outside the closed set. -/
theorem C5_viz_normalization_witness :
    fuzzService.completeClassify "q" = .ok "  Scatter_Plot  " ∧
    ∃ v, _get_visualization_type fuzzService "q" = .ok v ∧
      v ∈ allowed_viz_types ∧
      (pyLower (pyStrip "  Scatter_Plot  ") ∉ allowed_viz_types →
        v = "table") ∧
      (pyLower (pyStrip "  Scatter_Plot  ") ∈ allowed_viz_types →
        v = pyLower (pyStrip "  Scatter_Plot  ")) :=
  ⟨rfl, C5_viz_normalization fuzzService "q" "  Scatter_Plot  " rfl⟩

/-! ## C6 -/

/-- C6: under the original policy, which the code implements, a
completion-service failure in the Visualization Classifier propagates:
the whole pipeline aborts with the wrapped failure, no partial response
is produced and the data store is never contacted. -/
theorem C6_classification_failure_propagates {V : Type}
    (svc : CompletionService) (ds : DataStore V) (schema q : String)
    (ex : Bool) (sql m : String)
    (hg : _generate_sql_query svc schema q = .ok sql)
    (hcl : svc.completeClassify q = .error m) :
    process_query svc ds schema q ex =
      (.error ("Error processing query: " ++ m), []) := by
  have hv : _get_visualization_type svc q = .error m := by
    unfold _get_visualization_type
    rw [hcl]
  simp [process_query, hg, hv]

/-- C6, witness at a concrete failing classifier call. -/
theorem C6_classification_failure_propagates_witness :
    _generate_sql_query classifyFailService "S" "q" = .ok "SELECT 1" ∧
    classifyFailService.completeClassify "q" = .error "rate limited" ∧
    process_query classifyFailService failingStore "S" "q" true =
      (.error ("Error processing query: " ++ "rate limited"), []) :=
  ⟨rfl, rfl,
    C6_classification_failure_propagates classifyFailService failingStore
      "S" "q" true "SELECT 1" "rate limited" rfl rfl⟩

/-! ## C7 -/

/-- C7: every response returned by the pipeline has its mandatory
fields (the structure makes query text, visualization type and summary
non-optional, and the visualization type is in the closed set), the
results and error fields are never both populated, and both are absent
when execution was not requested; when a mandatory step fails the
pipeline produces no response at all. -/
theorem C7_response_invariants {V : Type} (svc : CompletionService)
    (ds : DataStore V) (schema q : String) (ex : Bool) :
    match (process_query svc ds schema q ex).1 with
    | .ok r =>
        r.visualizationType ∈ allowed_viz_types ∧
        ¬(r.results.isSome ∧ r.error.isSome) ∧
        (ex = false → r.results = none ∧ r.error = none)
    | .error _ => True := by
  unfold process_query
  cases hg : _generate_sql_query svc schema q with
  | error e => simp
  | ok sql =>
      cases hv : _get_visualization_type svc q with
      | error e => simp
      | ok viz =>
          have hviz := viz_of_ok hv
          cases ex with
          | false =>
              cases hs : _generate_summary svc q sql
                  (none : Option (List (List (String × V)))) with
              | error e => simp [hs]
              | ok sum => simp [hs, hviz]
          | true =>
              rcases hx : _execute_query ds sql with ⟨r, evs⟩
              cases r with
              | error m =>
                  cases hs : _generate_summary svc q sql
                      (none : Option (List (List (String × V)))) with
                  | error e => simp [hx, hs]
                  | ok sum => simp [hx, hs, hviz]
              | ok rs =>
                  cases hs : _generate_summary svc q sql (some rs) with
                  | error e => simp [hx, hs]
                  | ok sum => simp [hx, hs, hviz]

/-! ## C8 -/

/-- C8: with execution disabled the returned response has results and
error both absent while query text and summary are populated from the
generation steps, and the data store is never contacted (empty event
trace). -/
theorem C8_execute_disabled {V : Type} (svc : CompletionService)
    (ds : DataStore V) (schema q sql viz sum : String)
    (hg : _generate_sql_query svc schema q = .ok sql)
    (hv : _get_visualization_type svc q = .ok viz)
    (hs : _generate_summary svc q sql
      (none : Option (List (List (String × V)))) = .ok sum) :
    process_query svc ds schema q false =
      (.ok { sqlQuery := sql, visualizationType := viz, summary := sum,
             results := none, error := none }, []) := by
  simp [process_query, hg, hv, hs]

/-- C8, witness: execution disabled against a data store that would
fail, no event reaches it. -/
theorem C8_execute_disabled_witness :
    _generate_sql_query okService "S" "q" = .ok "SELECT 1" ∧
    _get_visualization_type okService "q" = .ok "bar_chart" ∧
    _generate_summary okService "q" "SELECT 1"
      (none : Option (List (List (String × String)))) =
        .ok "A short summary." ∧
    process_query okService failingStore "S" "q" false =
      (.ok { sqlQuery := "SELECT 1", visualizationType := "bar_chart",
             summary := "A short summary.", results := none,
             error := none }, []) :=
  ⟨rfl, rfl, rfl,
    C8_execute_disabled okService failingStore "S" "q" "SELECT 1"
      "bar_chart" "A short summary." rfl rfl rfl⟩

end SapB1

namespace SapB1

/-! ## C9 -/

/-- C9: the Schema Catalog is a pure function of the namespace, so two
constructions with the same namespace yield identical mappings; every
qualified identifier is the configured namespace followed by a
namespace-independent suffix, so changing the namespace changes the
prefix of every identifier consistently; an absent environment value
falls back to the default constant SBODEMOUS (and construction is a
total function, so it cannot fail). -/
theorem C9_catalog_idempotent_and_namespaced (s1 s2 : String) :
    (s1 = s2 → table_mappings s1 = table_mappings s2) ∧
    table_mappings s1 = (pyDict table_mapping_suffixes).map
      (fun e => (e.1, e.2.map (fun suf => s1 ++ suf))) ∧
    schema_of none = "SBODEMOUS" :=
  ⟨fun h => h ▸ rfl, table_mappings_factor s1, rfl⟩

/-- C9, witness at a concrete namespace. -/
theorem C9_catalog_idempotent_and_namespaced_witness :
    ("A" : String) = "A" ∧
    table_mappings "A" = table_mappings "A" ∧
    table_mappings "A" = (pyDict table_mapping_suffixes).map
      (fun e => (e.1, e.2.map (fun suf => "A" ++ suf))) ∧
    schema_of none = "SBODEMOUS" :=
  ⟨rfl, (C9_catalog_idempotent_and_namespaced "A" "A").1 rfl,
    (C9_catalog_idempotent_and_namespaced "A" "A").2.1,
    (C9_catalog_idempotent_and_namespaced "A" "A").2.2⟩

/-! ## C10 -/

/-- C10: in the dict literal the keys customers and item_categories are
each bound twice; in the constructed catalog the later binding has
overwritten the earlier one, so customers maps to the single identifier
namespace.OCRD, and the contact-persons identifier namespace.OCPR from
the overwritten binding appears nowhere in the catalog. -/
theorem C10_duplicate_bindings_overwrite (s : String) :
    (table_mapping_entries s).countP (fun e => e.1 = "customers") = 2 ∧
    (table_mapping_entries s).countP
      (fun e => e.1 = "item_categories") = 2 ∧
    List.lookup "customers" (table_mappings s) = some [s ++ ".OCRD"] ∧
    ∀ e ∈ table_mappings s, s ++ ".OCPR" ∉ e.2 := by
  refine ⟨?_, ?_, ?_, ?_⟩
  · simp [table_mapping_entries, List.countP_cons]
  · simp [table_mapping_entries, List.countP_cons]
  · rw [table_mappings_eval]
    rfl
  · rw [table_mappings_factor]
    intro e he hmem
    obtain ⟨e0, he0, rfl⟩ := List.mem_map.mp he
    obtain ⟨suf, hsuf, heq⟩ := List.mem_map.mp hmem
    have hsuf2 : suf = ".OCPR" := append_left_inj s heq
    subst hsuf2
    have hforb : ∀ e1 ∈ pyDict table_mapping_suffixes, ".OCPR" ∉ e1.2 := by
      decide
    exact hforb e0 he0 hsuf

/-- C10, witness at the default namespace. -/
theorem C10_duplicate_bindings_overwrite_witness :
    (table_mapping_entries "SBODEMOUS").countP
      (fun e => e.1 = "customers") = 2 ∧
    List.lookup "customers" (table_mappings "SBODEMOUS") =
      some ["SBODEMOUS" ++ ".OCRD"] ∧
    "SBODEMOUS" ++ ".OCPR" ∉ ["SBODEMOUS" ++ ".OCRD"] :=
  ⟨(C10_duplicate_bindings_overwrite "SBODEMOUS").1,
   (C10_duplicate_bindings_overwrite "SBODEMOUS").2.2.1,
   (C10_duplicate_bindings_overwrite "SBODEMOUS").2.2.2
     ("customers", ["SBODEMOUS" ++ ".OCRD"])
     (by rw [table_mappings_eval]; simp)⟩

end SapB1
